import Mathlib

/-!
Verification of the translation-job tracker in `src/api/index.py`
(`app-cad-compliance`).

The handler is a Vercel-style function: it reads the in-memory dict
`in_memory_data_store`, makes outbound HTTP calls to the Onshape API,
and returns a response dict `{statusCode, body, headers}`.

Shallow embedding choices:
* Python dicts (the job store and the query dict) are association lists
  with unique keys (`Dict`); `dictGet` / `dictSet` / `dictPop` mirror
  `d.get(k)` / `d[k] = v` / `d.pop(k, None)`.
* The outbound HTTP calls are inputs to the embedded handlers: the
  upstream's answer to the translation-status (or submission) request is
  an `UpstreamResp` value, and the artifact download
  (`httpx.get` + `raise_for_status`) is a `FetchResult` value.  The
  handler never branches on anything else about the network.
* JSON bodies are structures holding exactly the fields the handler
  reads (`.get` of an absent key is `none`).
* A handler's result is its response plus the store after the call; the
  poll handler can also end in `.crash`, the uncaught Python exception
  (`AttributeError` from `None.lower()`).
-/

set_option autoImplicit false

namespace CadCompliance

/-- A Python dict from string keys to string values, as an association
list with at most one entry per key. -/
abbrev Dict : Type := List (String × String)

/-- `d.get(k)`: the value at `k`, or `none`. -/
def dictGet : Dict → String → Option String
  | [], _ => none
  | (k, v) :: rest, key => if k = key then some v else dictGet rest key

/-- `d.pop(k, None)`: the dict without key `k`. -/
def dictPop : Dict → String → Dict
  | [], _ => []
  | (k, v) :: rest, key =>
      if k = key then dictPop rest key else (k, v) :: dictPop rest key

/-- `d[k] = v`: the dict with key `k` bound to `v`. -/
def dictSet (d : Dict) (key v : String) : Dict :=
  dictPop d key ++ [(key, v)]

/-- Python truthiness of an optional string: `None` and `""` are falsy. -/
def pyTruthy : Option String → Bool
  | none => false
  | some s => s ≠ ""

/-- `_validate_required_params` (src/api/index.py lines 27-32): the
missing-parameter message, or `none` when all required keys are truthy. -/
def validateRequiredParams (query : Dict) (required : List String) :
    Option String :=
  let missing := required.filter (fun p => !(pyTruthy (dictGet query p)))
  if missing.isEmpty then none
  else some ("Missing required query parameters: " ++ String.intercalate ", " missing)

/-- The JSON body of the upstream response to the submission POST, with
the one field the handler reads (`id`) and the rest of the dict kept
opaque so that "forward the body" is expressible. -/
structure SubmitJson where
  id : Option String
  rest : List (String × String)
deriving DecidableEq

/-- The JSON body of the upstream translation-status response, with the
fields the handler reads via `.get`. -/
structure StatusJson where
  requestState : Option String
  failureReason : Option String
  documentId : Option String
  resultExternalDataIds : Option (List String)
deriving DecidableEq

/-- Outcome of `_onshape_api_request` (src/api/index.py lines 34-76):
either a caught `httpx.RequestError` (the helper returns a 502 error
dict), a caught unexpected exception (500 dict), or the raw response
with its status code, parsed JSON body (`none` when `.json()` would
raise), and text. -/
inductive UpstreamResp (α : Type) where
  | transportError (msg : String)
  | unexpectedError (msg : String)
  | response (statusCode : Nat) (jsonBody : Option α) (text : String)
deriving DecidableEq

/-- Outcome of the artifact download
(`httpx.get(gltf_data_url, ...)` + `raise_for_status()`,
src/api/index.py lines 299-307): success with the response's status,
content bytes and content-type header; an `httpx.HTTPStatusError`; or an
`httpx.RequestError`. -/
inductive FetchResult where
  | ok (statusCode : Nat) (content : String) (contentType : Option String)
  | httpStatusError (statusCode : Nat) (text : String)
  | requestError (msg : String)
deriving DecidableEq

/-- The JSON response bodies the handler builds, one constructor per
dict shape in the source. -/
inductive Body where
  | jsonError (error : String)
  | jsonErrorDetails (error : String) (details : String)
  | jsonFailed (error : String) (reason : String)
  | jsonStatus (status : String)
  | jsonData (data : SubmitJson)
  | jsonInitFail (error : String) (onshapeDetails : SubmitJson ⊕ String)
  | raw (content : String) (contentType : String)
deriving DecidableEq

/-- A response dict `{statusCode, body, headers}`; headers are
determined by the body shape and are not modelled separately. -/
structure Resp where
  statusCode : Nat
  body : Body
deriving DecidableEq

/-- How a handler invocation ends: a returned response, or an uncaught
Python exception escaping `handler`. -/
inductive Outcome where
  | ok (r : Resp)
  | crash
deriving DecidableEq

/-- Result of the poll branch: how it ended, and the job store after. -/
structure PollResult where
  outcome : Outcome
  store : Dict
deriving DecidableEq

/-- Result of the submission branch: the response, the job store after,
and whether the upstream POST was issued at all. -/
structure SubmitResult where
  resp : Resp
  store : Dict
  calledUpstream : Bool
deriving DecidableEq

/-- The test `not doc_id or not ext_id_list or not ext_id_list[0]`
(src/api/index.py line 278), with Python's short-circuit so an empty
list is never indexed. -/
def resultInfoMissing (j : StatusJson) : Bool :=
  !(pyTruthy j.documentId) ||
    (match j.resultExternalDataIds with
     | none => true
     | some [] => true
     | some (x :: _) => x = "")

/-- The `GET /api/gltf/{tid}` branch of `handler`
(src/api/index.py lines 236-317).

`statusResp` is the upstream's answer to `GET /translations/{tid}`
and `fetch` the outcome of the artifact download; each is consulted
only when control reaches the corresponding call in the source. -/
def handleGltfPoll (tid : String) (store : Dict)
    (statusResp : UpstreamResp StatusJson) (fetch : FetchResult) :
    PollResult :=
  let translationStatus := dictGet store tid
  if translationStatus = some "in-progress" then
    ⟨.ok ⟨202, .jsonStatus "Translation in progress."⟩, store⟩
  else
    -- `None` or any other stored value: proceed to check Onshape directly
    match statusResp with
    | .transportError msg =>
        ⟨.ok ⟨502, .jsonError ("Onshape API request failed: " ++ msg)⟩, store⟩
    | .unexpectedError msg =>
        ⟨.ok ⟨500, .jsonError ("An unexpected error occurred: " ++ msg)⟩, store⟩
    | .response code jsonBody text =>
      if code ≠ 200 then
        ⟨.ok ⟨code, .jsonErrorDetails "Failed to get translation status from Onshape."
            (text.take 200)⟩, store⟩
      else
        match jsonBody with
        | none =>
            ⟨.ok ⟨500, .jsonError "Failed to parse Onshape translation status response."⟩,
             store⟩
        | some transJson =>
          if transJson.requestState = some "FAILED" then
            ⟨.ok ⟨500, .jsonFailed "Onshape translation failed."
                ((transJson.failureReason).getD "Unknown")⟩,
             dictPop store tid⟩
          else if transJson.requestState ≠ some "DONE" then
            -- the store write precedes the f-string that calls `.lower()`
            let store2 := dictSet store tid "in-progress"
            match transJson.requestState with
            | some rs =>
                ⟨.ok ⟨202, .jsonStatus ("Translation is " ++ rs.toLower ++ ".")⟩, store2⟩
            | none => ⟨.crash, store2⟩
          else
            if resultInfoMissing transJson then
              ⟨.ok ⟨500, .jsonError "Translation result info missing from Onshape response."⟩,
               store⟩
            else
              match fetch with
              | .httpStatusError st text =>
                  ⟨.ok ⟨st, .jsonError ("Failed to download GLTF data from Onshape: " ++
                      text.take 200)⟩, dictPop store tid⟩
              | .requestError msg =>
                  ⟨.ok ⟨502, .jsonError ("Network error downloading GLTF data: " ++ msg)⟩,
                   dictPop store tid⟩
              | .ok st content contentType =>
                  ⟨.ok ⟨st, .raw content (contentType.getD "application/octet-stream")⟩,
                   dictPop store tid⟩

/-- The `GET /api/gltf` submission branch of `handler`
(src/api/index.py lines 155-231).  The construction of the outbound
endpoint and POST body has no effect on the store or the response shape
and is absorbed into the `upstream` input; `calledUpstream` records
whether control reached that POST. -/
def handleGltfSubmit (query : Dict) (store : Dict)
    (upstream : UpstreamResp SubmitJson) : SubmitResult :=
  match validateRequiredParams query ["documentId", "workspaceId", "gltfElementId"] with
  | some paramError => ⟨⟨400, .jsonError paramError⟩, store, false⟩
  | none =>
    match upstream with
    | .transportError msg =>
        ⟨⟨502, .jsonError ("Onshape API request failed: " ++ msg)⟩, store, true⟩
    | .unexpectedError msg =>
        ⟨⟨500, .jsonError ("An unexpected error occurred: " ++ msg)⟩, store, true⟩
    | .response code jsonBody text =>
      if code = 200 then
        match jsonBody with
        | none =>
            ⟨⟨500, .jsonError "Failed to parse Onshape translation initiation response."⟩,
             store, true⟩
        | some data =>
          let store2 :=
            match data.id with
            | some tid => if tid ≠ "" then dictSet store tid "in-progress" else store
            | none => store
          ⟨⟨200, .jsonData data⟩, store2, true⟩
      else
        let errorDetails : SubmitJson ⊕ String :=
          match jsonBody with
          | some d => Sum.inl d
          | none => Sum.inr (text.take 200)
        ⟨⟨code, .jsonInitFail "Failed to initiate GLTF translation." errorDetails⟩,
         store, true⟩

/-- The parsed body of a `POST /api/event` request; `none` stands for
the empty dict (falsy in `if parsed_body and ...`). -/
structure EventBody where
  event : Option String
  translationId : Option String
deriving DecidableEq

/-- The `POST /api/event` webhook branch of `handler`
(src/api/index.py lines 320-329). -/
def handleEvent (parsedBody : Option EventBody) (store : Dict) :
    Resp × Dict :=
  let store2 :=
    match parsedBody with
    | none => store
    | some b =>
      if b.event = some "onshape.model.translation.complete" then
        match b.translationId with
        | some tid => if tid ≠ "" then dictSet store tid "completed_by_webhook" else store
        | none => store
      else store
  (⟨200, .jsonStatus "Webhook event received."⟩, store2)

/-- Looking up a key just popped yields `none`. -/
theorem dictGet_dictPop_self (d : Dict) (k : String) :
    dictGet (dictPop d k) k = none := by
  induction d with
  | nil => rfl
  | cons p rest ih =>
    obtain ⟨k2, v⟩ := p
    by_cases hk : k2 = k
    · simp [dictPop, hk, ih]
    · simp [dictPop, dictGet, hk, ih]

/-- C6: a submission missing any of documentId, workspaceId,
gltfElementId returns 400 whose message enumerates exactly the missing
parameter names, performs no upstream call, and leaves the store
unchanged (no Job Record created). -/
theorem submit_missing_params_400 (query store : Dict)
    (upstream : UpstreamResp SubmitJson)
    (h : (["documentId", "workspaceId", "gltfElementId"].filter
        (fun p => !(pyTruthy (dictGet query p)))) ≠ []) :
    handleGltfSubmit query store upstream =
      ⟨⟨400, .jsonError ("Missing required query parameters: " ++
          String.intercalate ", "
            (["documentId", "workspaceId", "gltfElementId"].filter
              (fun p => !(pyTruthy (dictGet query p)))))⟩, store, false⟩ := by
  unfold handleGltfSubmit validateRequiredParams
  simp only [List.isEmpty_eq_true, h, if_false]

/-- Witness for C6: omitting `workspaceId` (with the others present)
yields 400 naming exactly `workspaceId`, no upstream call, no record. -/
theorem submit_missing_params_400_witness :
    (["documentId", "workspaceId", "gltfElementId"].filter
        (fun p => !(pyTruthy (dictGet [("documentId", "D1"), ("gltfElementId", "E1")] p)))) ≠ [] ∧
    handleGltfSubmit [("documentId", "D1"), ("gltfElementId", "E1")] []
        (.response 200 (some ⟨some "T1", []⟩) "") =
      ⟨⟨400, .jsonError "Missing required query parameters: workspaceId"⟩, [], false⟩ :=
  ⟨by decide, by
    have h := submit_missing_params_400 [("documentId", "D1"), ("gltfElementId", "E1")] []
      (.response 200 (some ⟨some "T1", []⟩) "") (by decide)
    simpa using h⟩

/-- C7: once a poll reaches upstream status DONE with valid result info,
the job id is removed from the store whatever the artifact fetch does —
successful download, upstream HTTP error, or transport error alike. -/
theorem done_poll_removes_record (tid : String) (store : Dict)
    (j : StatusJson) (text : String) (fetch : FetchResult)
    (h : dictGet store tid ≠ some "in-progress")
    (hdone : j.requestState = some "DONE")
    (hinfo : resultInfoMissing j = false) :
    dictGet (handleGltfPoll tid store (.response 200 (some j) text) fetch).store tid
      = none := by
  unfold handleGltfPoll
  cases fetch <;> simp [h, hdone, hinfo, dictGet_dictPop_self]

/-- Witness for C7: concrete DONE status with valid result info and a
failing (transport-error) fetch still ends with the id absent. -/
theorem done_poll_removes_record_witness :
    dictGet [("T1", "completed_by_webhook")] "T1" ≠ some "in-progress" ∧
    (⟨some "DONE", none, some "D1", some ["X1"]⟩ : StatusJson).requestState = some "DONE" ∧
    resultInfoMissing ⟨some "DONE", none, some "D1", some ["X1"]⟩ = false ∧
    dictGet (handleGltfPoll "T1" [("T1", "completed_by_webhook")]
      (.response 200 (some ⟨some "DONE", none, some "D1", some ["X1"]⟩) "")
      (.requestError "connection reset")).store "T1" = none :=
  ⟨by decide, by decide, by decide,
    done_poll_removes_record "T1" [("T1", "completed_by_webhook")]
      ⟨some "DONE", none, some "D1", some ["X1"]⟩ "" (.requestError "connection reset")
      (by decide) (by decide) (by decide)⟩

/-- C8: a poll for an id stored as in-progress answers 202
"Translation in progress." and changes nothing — never 404, never the
artifact — whatever upstream would report. -/
theorem inprogress_poll_202 (tid : String) (store : Dict)
    (statusResp : UpstreamResp StatusJson) (fetch : FetchResult)
    (h : dictGet store tid = some "in-progress") :
    handleGltfPoll tid store statusResp fetch =
      ⟨.ok ⟨202, .jsonStatus "Translation in progress."⟩, store⟩ := by
  unfold handleGltfPoll
  simp [h]

/-- Witness for C8. -/
theorem inprogress_poll_202_witness :
    dictGet [("T1", "in-progress")] "T1" = some "in-progress" ∧
    handleGltfPoll "T1" [("T1", "in-progress")]
        (.response 200 (some ⟨some "DONE", none, some "D1", some ["X1"]⟩) "")
        (.ok 200 "GLTFBYTES" none) =
      ⟨.ok ⟨202, .jsonStatus "Translation in progress."⟩, [("T1", "in-progress")]⟩ :=
  ⟨by decide,
    inprogress_poll_202 "T1" [("T1", "in-progress")]
      (.response 200 (some ⟨some "DONE", none, some "D1", some ["X1"]⟩) "")
      (.ok 200 "GLTFBYTES" none) (by decide)⟩

/-- C9: an upstream 200 status body with no `requestState` field makes
the poll branch raise (Python `None.lower()`) instead of returning a
response; the store has already been rewritten to in-progress when the
exception escapes. -/
theorem missing_requestState_crashes (tid : String) (store : Dict)
    (text : String) (fetch : FetchResult) (j : StatusJson)
    (h : dictGet store tid ≠ some "in-progress")
    (hrs : j.requestState = none) :
    handleGltfPoll tid store (.response 200 (some j) text) fetch =
      ⟨.crash, dictSet store tid "in-progress"⟩ := by
  unfold handleGltfPoll
  simp [h, hrs]

/-- Witness for C9. -/
theorem missing_requestState_crashes_witness :
    dictGet [] "T1" ≠ some "in-progress" ∧
    (⟨none, none, none, none⟩ : StatusJson).requestState = none ∧
    handleGltfPoll "T1" [] (.response 200 (some ⟨none, none, none, none⟩) "{}")
        (.requestError "unused") =
      ⟨.crash, dictSet [] "T1" "in-progress"⟩ :=
  ⟨by decide, by decide,
    missing_requestState_crashes "T1" [] "{}" (.requestError "unused")
      ⟨none, none, none, none⟩ (by decide) (by decide)⟩

/-- C10: a submission accepted upstream (HTTP 200) whose JSON lacks an
`id` still returns 200 forwarding that body, but writes nothing to the
store, so any later poll sees the store exactly as if the job had never
been submitted. -/
theorem submit_no_id_forwards_no_record (query store : Dict)
    (data : SubmitJson) (text : String)
    (hq : validateRequiredParams query ["documentId", "workspaceId", "gltfElementId"] = none)
    (hid : data.id = none) :
    handleGltfSubmit query store (.response 200 (some data) text) =
      ⟨⟨200, .jsonData data⟩, store, true⟩ := by
  unfold handleGltfSubmit
  simp [hq, hid]

/-- Witness for C10. -/
theorem submit_no_id_forwards_no_record_witness :
    validateRequiredParams
        [("documentId", "D1"), ("workspaceId", "W1"), ("gltfElementId", "E1")]
        ["documentId", "workspaceId", "gltfElementId"] = none ∧
    (⟨none, [("failureReason", "quota")]⟩ : SubmitJson).id = none ∧
    handleGltfSubmit [("documentId", "D1"), ("workspaceId", "W1"), ("gltfElementId", "E1")]
        [] (.response 200 (some ⟨none, [("failureReason", "quota")]⟩) "") =
      ⟨⟨200, .jsonData ⟨none, [("failureReason", "quota")]⟩⟩, [], true⟩ :=
  ⟨by decide, by decide,
    submit_no_id_forwards_no_record
      [("documentId", "D1"), ("workspaceId", "W1"), ("gltfElementId", "E1")] []
      ⟨none, [("failureReason", "quota")]⟩ "" (by decide) (by decide)⟩

/-- The HTTP status an invocation ended with, if it returned at all. -/
def Outcome.statusOf : Outcome → Option Nat
  | .ok r => some r.statusCode
  | .crash => none

/-- C1 counterexample: after a poll that reached the artifact fetch,
delivered the artifact and removed the record, an immediately following
second poll with upstream unchanged does not return 404 — it delivers
the artifact a second time. -/
theorem second_poll_redelivers_artifact :
    handleGltfPoll "T1" [("T1", "completed_by_webhook")]
        (.response 200 (some ⟨some "DONE", none, some "D1", some ["X1"]⟩) "")
        (.ok 200 "GLTFBYTES" (some "model/gltf-binary")) =
      ⟨.ok ⟨200, .raw "GLTFBYTES" "model/gltf-binary"⟩, []⟩ ∧
    (handleGltfPoll "T1" []
        (.response 200 (some ⟨some "DONE", none, some "D1", some ["X1"]⟩) "")
        (.ok 200 "GLTFBYTES" (some "model/gltf-binary"))).outcome =
      .ok ⟨200, .raw "GLTFBYTES" "model/gltf-binary"⟩ ∧
    Outcome.statusOf (handleGltfPoll "T1" []
        (.response 200 (some ⟨some "DONE", none, some "D1", some ["X1"]⟩) "")
        (.ok 200 "GLTFBYTES" (some "model/gltf-binary"))).outcome ≠ some 404 := by
  refine ⟨by decide, by decide, by decide⟩

/-- C1 (amended): after the artifact-fetch poll removes the record, an
immediately following second poll does not answer "not found" from the
store: it re-queries upstream and re-delivers the artifact whenever
upstream still reports DONE with valid result info and the download
succeeds; any 404 it does return is one forwarded from upstream —
either from the status request or from the artifact download. -/
theorem second_poll_requeries_upstream (tid : String) (store : Dict)
    (j : StatusJson) (text : String)
    (st : Nat) (content : String) (contentType : Option String)
    (jsonBody : Option StatusJson) (text2 text3 : String) (fetch : FetchResult)
    (h : dictGet store tid = none)
    (hdone : j.requestState = some "DONE")
    (hinfo : resultInfoMissing j = false) :
    (handleGltfPoll tid store (.response 200 (some j) text)
        (.ok st content contentType)).outcome =
      .ok ⟨st, .raw content (contentType.getD "application/octet-stream")⟩ ∧
    (handleGltfPoll tid store (.response 404 jsonBody text2) fetch).outcome =
      .ok ⟨404, .jsonErrorDetails "Failed to get translation status from Onshape."
        (text2.take 200)⟩ ∧
    (handleGltfPoll tid store (.response 200 (some j) text)
        (.httpStatusError 404 text3)).outcome =
      .ok ⟨404, .jsonError ("Failed to download GLTF data from Onshape: " ++
        text3.take 200)⟩ := by
  refine ⟨?_, ?_, ?_⟩
  · unfold handleGltfPoll
    simp [h, hdone, hinfo]
  · unfold handleGltfPoll
    simp [h]
  · unfold handleGltfPoll
    simp [h, hdone, hinfo]

/-- Witness for the amended C1. -/
theorem second_poll_requeries_upstream_witness :
    dictGet [] "T1" = none ∧
    (⟨some "DONE", none, some "D1", some ["X1"]⟩ : StatusJson).requestState = some "DONE" ∧
    resultInfoMissing ⟨some "DONE", none, some "D1", some ["X1"]⟩ = false ∧
    ((handleGltfPoll "T1" []
        (.response 200 (some ⟨some "DONE", none, some "D1", some ["X1"]⟩) "")
        (.ok 200 "GLTFBYTES" (some "model/gltf-binary"))).outcome =
      .ok ⟨200, .raw "GLTFBYTES" "model/gltf-binary"⟩ ∧
    (handleGltfPoll "T1" [] (.response 404 none "not found") (.requestError "u")).outcome =
      .ok ⟨404, .jsonErrorDetails "Failed to get translation status from Onshape."
        ("not found".take 200)⟩ ∧
    (handleGltfPoll "T1" []
        (.response 200 (some ⟨some "DONE", none, some "D1", some ["X1"]⟩) "")
        (.httpStatusError 404 "gone")).outcome =
      .ok ⟨404, .jsonError ("Failed to download GLTF data from Onshape: " ++
        "gone".take 200)⟩) :=
  ⟨by decide, by decide, by decide,
    second_poll_requeries_upstream "T1" [] ⟨some "DONE", none, some "D1", some ["X1"]⟩ ""
      200 "GLTFBYTES" (some "model/gltf-binary") none "not found" "gone" (.requestError "u")
      (by decide) (by decide) (by decide)⟩

/-- C2 counterexample: for an id never submitted (empty store) the poll
does not return 404; with upstream reporting DONE and a successful
download it returns the artifact with status 200. -/
theorem unknown_id_poll_not_404 :
    handleGltfPoll "T2" []
        (.response 200 (some ⟨some "DONE", none, some "D1", some ["X1"]⟩) "")
        (.ok 200 "GLTFBYTES" (some "model/gltf-binary")) =
      ⟨.ok ⟨200, .raw "GLTFBYTES" "model/gltf-binary"⟩, []⟩ ∧
    Outcome.statusOf (handleGltfPoll "T2" []
        (.response 200 (some ⟨some "DONE", none, some "D1", some ["X1"]⟩) "")
        (.ok 200 "GLTFBYTES" (some "model/gltf-binary"))).outcome ≠ some 404 := by
  refine ⟨by decide, by decide⟩

/-- C2 (amended): a poll for an id with no store entry does not answer
locally; it queries upstream for that id's status and forwards the
result. In particular a 404 from the upstream status request is
forwarded as 404, and a 404 from the artifact download (after DONE with
valid result info) is likewise forwarded as 404. -/
theorem unknown_id_poll_forwards_404 (tid : String) (store : Dict)
    (jsonBody : Option StatusJson) (j : StatusJson)
    (text text2 text3 : String) (fetch : FetchResult)
    (h : dictGet store tid = none)
    (hdone : j.requestState = some "DONE")
    (hinfo : resultInfoMissing j = false) :
    handleGltfPoll tid store (.response 404 jsonBody text) fetch =
      ⟨.ok ⟨404, .jsonErrorDetails "Failed to get translation status from Onshape."
        (text.take 200)⟩, store⟩ ∧
    (handleGltfPoll tid store (.response 200 (some j) text2)
        (.httpStatusError 404 text3)).outcome =
      .ok ⟨404, .jsonError ("Failed to download GLTF data from Onshape: " ++
        text3.take 200)⟩ := by
  constructor
  · unfold handleGltfPoll
    simp [h]
  · unfold handleGltfPoll
    simp [h, hdone, hinfo]

/-- Witness for the amended C2. -/
theorem unknown_id_poll_forwards_404_witness :
    dictGet [] "T2" = none ∧
    (⟨some "DONE", none, some "D1", some ["X1"]⟩ : StatusJson).requestState = some "DONE" ∧
    resultInfoMissing ⟨some "DONE", none, some "D1", some ["X1"]⟩ = false ∧
    (handleGltfPoll "T2" [] (.response 404 none "no such translation") (.requestError "u") =
      ⟨.ok ⟨404, .jsonErrorDetails "Failed to get translation status from Onshape."
        ("no such translation".take 200)⟩, []⟩ ∧
    (handleGltfPoll "T2" []
        (.response 200 (some ⟨some "DONE", none, some "D1", some ["X1"]⟩) "")
        (.httpStatusError 404 "gone")).outcome =
      .ok ⟨404, .jsonError ("Failed to download GLTF data from Onshape: " ++
        "gone".take 200)⟩) :=
  ⟨by decide, by decide, by decide,
    unknown_id_poll_forwards_404 "T2" [] none ⟨some "DONE", none, some "D1", some ["X1"]⟩
      "no such translation" "" "gone" (.requestError "u")
      (by decide) (by decide) (by decide)⟩

/-- C3 counterexample: a "translation complete" webhook for an id absent
from the store is acknowledged with 200 but does not leave the store
unchanged — it creates the entry. -/
theorem webhook_unknown_id_creates_entry :
    handleEvent (some ⟨some "onshape.model.translation.complete", some "T9"⟩) [] =
      (⟨200, .jsonStatus "Webhook event received."⟩, [("T9", "completed_by_webhook")]) ∧
    dictGet (handleEvent
        (some ⟨some "onshape.model.translation.complete", some "T9"⟩) []).2 "T9" =
      some "completed_by_webhook" := by
  refine ⟨by decide, by decide⟩

/-- C3 (amended): the webhook receiver always acknowledges with 200, but
a matching "translation complete" notification carrying a translationId
unconditionally writes store[translationId] := "completed_by_webhook",
creating (or resurrecting) the entry even when the id is unknown. -/
theorem webhook_acks_and_writes (store : Dict) (tid : String)
    (htid : tid ≠ "") :
    (handleEvent (some ⟨some "onshape.model.translation.complete", some tid⟩) store).1 =
      ⟨200, .jsonStatus "Webhook event received."⟩ ∧
    (handleEvent (some ⟨some "onshape.model.translation.complete", some tid⟩) store).2 =
      dictSet store tid "completed_by_webhook" ∧
    ∀ (b : Option EventBody) (store2 : Dict),
      (handleEvent b store2).1 = ⟨200, .jsonStatus "Webhook event received."⟩ := by
  refine ⟨rfl, ?_, fun b store2 => rfl⟩
  unfold handleEvent
  simp [htid]

/-- Witness for the amended C3. -/
theorem webhook_acks_and_writes_witness :
    ("T9" : String) ≠ "" ∧
    ((handleEvent (some ⟨some "onshape.model.translation.complete", some "T9"⟩) []).1 =
      ⟨200, .jsonStatus "Webhook event received."⟩ ∧
    (handleEvent (some ⟨some "onshape.model.translation.complete", some "T9"⟩) []).2 =
      dictSet [] "T9" "completed_by_webhook" ∧
    ∀ (b : Option EventBody) (store2 : Dict),
      (handleEvent b store2).1 = ⟨200, .jsonStatus "Webhook event received."⟩) :=
  ⟨by decide, webhook_acks_and_writes [] "T9" (by decide)⟩

/-- C4 counterexample: upstream DONE with the result document id missing
makes the poll return 500 — but the record stays in the store, contrary
to the claimed removal. -/
theorem missing_result_info_keeps_record :
    handleGltfPoll "T4" [("T4", "completed_by_webhook")]
        (.response 200 (some ⟨some "DONE", none, none, some ["X1"]⟩) "")
        (.requestError "unused") =
      ⟨.ok ⟨500, .jsonError "Translation result info missing from Onshape response."⟩,
       [("T4", "completed_by_webhook")]⟩ ∧
    dictGet (handleGltfPoll "T4" [("T4", "completed_by_webhook")]
        (.response 200 (some ⟨some "DONE", none, none, some ["X1"]⟩) "")
        (.requestError "unused")).store "T4" = some "completed_by_webhook" := by
  refine ⟨by decide, by decide⟩

/-- C4 (amended): on upstream DONE with the result document id or
external-data id missing, the poll returns 500 "Translation result info
missing from Onshape response." and leaves the store unchanged — the
record is neither marked failed nor removed. -/
theorem done_missing_info_500_unchanged (tid : String) (store : Dict)
    (j : StatusJson) (text : String) (fetch : FetchResult)
    (h : dictGet store tid ≠ some "in-progress")
    (hdone : j.requestState = some "DONE")
    (hinfo : resultInfoMissing j = true) :
    handleGltfPoll tid store (.response 200 (some j) text) fetch =
      ⟨.ok ⟨500, .jsonError "Translation result info missing from Onshape response."⟩,
       store⟩ := by
  unfold handleGltfPoll
  simp [h, hdone, hinfo]

/-- Witness for the amended C4. -/
theorem done_missing_info_500_unchanged_witness :
    dictGet [("T4", "completed_by_webhook")] "T4" ≠ some "in-progress" ∧
    (⟨some "DONE", none, none, some ["X1"]⟩ : StatusJson).requestState = some "DONE" ∧
    resultInfoMissing ⟨some "DONE", none, none, some ["X1"]⟩ = true ∧
    handleGltfPoll "T4" [("T4", "completed_by_webhook")]
        (.response 200 (some ⟨some "DONE", none, none, some ["X1"]⟩) "")
        (.requestError "unused") =
      ⟨.ok ⟨500, .jsonError "Translation result info missing from Onshape response."⟩,
       [("T4", "completed_by_webhook")]⟩ :=
  ⟨by decide, by decide, by decide,
    done_missing_info_500_unchanged "T4" [("T4", "completed_by_webhook")]
      ⟨some "DONE", none, none, some ["X1"]⟩ "" (.requestError "unused")
      (by decide) (by decide) (by decide)⟩

/-- C5 counterexample: upstream FAILED with reason "R" gives a 500
carrying "R" and removes the record, but the subsequent poll on the same
id does not return "not found" — it re-queries upstream and reports the
500 failure again. -/
theorem failed_then_second_poll_not_404 :
    handleGltfPoll "T5" [("T5", "completed_by_webhook")]
        (.response 200 (some ⟨some "FAILED", some "R", none, none⟩) "")
        (.requestError "unused") =
      ⟨.ok ⟨500, .jsonFailed "Onshape translation failed." "R"⟩, []⟩ ∧
    (handleGltfPoll "T5" []
        (.response 200 (some ⟨some "FAILED", some "R", none, none⟩) "")
        (.requestError "unused")).outcome =
      .ok ⟨500, .jsonFailed "Onshape translation failed." "R"⟩ ∧
    Outcome.statusOf (handleGltfPoll "T5" []
        (.response 200 (some ⟨some "FAILED", some "R", none, none⟩) "")
        (.requestError "unused")).outcome ≠ some 404 := by
  refine ⟨by decide, by decide, by decide⟩

/-- C5 (amended): upstream FAILED with reason R yields a 500 response
carrying exactly R and removes the record; but a subsequent poll on the
same id does not return "not found" — it queries upstream again and,
with upstream still reporting FAILED with reason R, reports the same 500
failure again. -/
theorem failed_poll_reports_and_pops (tid : String) (store : Dict)
    (j j2 : StatusJson) (reason text text2 : String)
    (fetch fetch2 : FetchResult)
    (h : dictGet store tid ≠ some "in-progress")
    (hfail : j.requestState = some "FAILED")
    (hreason : j.failureReason = some reason)
    (hfail2 : j2.requestState = some "FAILED")
    (hreason2 : j2.failureReason = some reason) :
    handleGltfPoll tid store (.response 200 (some j) text) fetch =
      ⟨.ok ⟨500, .jsonFailed "Onshape translation failed." reason⟩, dictPop store tid⟩ ∧
    handleGltfPoll tid (dictPop store tid) (.response 200 (some j2) text2) fetch2 =
      ⟨.ok ⟨500, .jsonFailed "Onshape translation failed." reason⟩,
       dictPop (dictPop store tid) tid⟩ := by
  constructor
  · unfold handleGltfPoll
    simp [h, hfail, hreason]
  · have h2 : dictGet (dictPop store tid) tid = none := dictGet_dictPop_self store tid
    unfold handleGltfPoll
    simp [h2, hfail2, hreason2]

/-- Witness for the amended C5. -/
theorem failed_poll_reports_and_pops_witness :
    dictGet [("T5", "completed_by_webhook")] "T5" ≠ some "in-progress" ∧
    (⟨some "FAILED", some "R", none, none⟩ : StatusJson).requestState = some "FAILED" ∧
    (⟨some "FAILED", some "R", none, none⟩ : StatusJson).failureReason = some "R" ∧
    (handleGltfPoll "T5" [("T5", "completed_by_webhook")]
        (.response 200 (some ⟨some "FAILED", some "R", none, none⟩) "")
        (.requestError "u") =
      ⟨.ok ⟨500, .jsonFailed "Onshape translation failed." "R"⟩,
       dictPop [("T5", "completed_by_webhook")] "T5"⟩ ∧
    handleGltfPoll "T5" (dictPop [("T5", "completed_by_webhook")] "T5")
        (.response 200 (some ⟨some "FAILED", some "R", none, none⟩) "")
        (.requestError "u") =
      ⟨.ok ⟨500, .jsonFailed "Onshape translation failed." "R"⟩,
       dictPop (dictPop [("T5", "completed_by_webhook")] "T5") "T5"⟩) :=
  ⟨by decide, by decide, by decide,
    failed_poll_reports_and_pops "T5" [("T5", "completed_by_webhook")]
      ⟨some "FAILED", some "R", none, none⟩ ⟨some "FAILED", some "R", none, none⟩
      "R" "" "" (.requestError "u") (.requestError "u")
      (by decide) (by decide) (by decide) (by decide) (by decide)⟩

end CadCompliance
